import Mathlib

/-!
Verification development for the weather-application client (`src/script.js`).

The JavaScript source is shallowly embedded below.  Strings are Lean
`String`s (lists of characters); JS string lengths are modelled as the
number of characters, which agrees with JS UTF-16 lengths on the BMP
strings the application handles.  DOM mutations are modelled as updates
to an explicit `UiState` record; the four display sections carry a
boolean "visible" flag (the negation of the `hidden` CSS class).
Network requests are modelled by passing the response (or its failure)
as an explicit argument to the function that, in the source, awaits the
corresponding `fetch`.
-/

/-! ## Character and string utilities (JS semantics) -/

/-- Character class of JS `\s` (and of `String.prototype.trim`): ASCII
whitespace, NBSP, and the Unicode space separators and line terminators. -/
def isJsWhitespace (c : Char) : Bool :=
  let n := c.toNat
  n == 9 || n == 10 || n == 11 || n == 12 || n == 13 || n == 32 ||
  n == 0xA0 || n == 0x1680 || (0x2000 ≤ n && n ≤ 0x200A) ||
  n == 0x2028 || n == 0x2029 || n == 0x202F || n == 0x205F || n == 0x3000 || n == 0xFEFF

/-- JS `String.prototype.trim`: strip leading and trailing whitespace. -/
def jsTrim (s : String) : String :=
  ⟨((s.data.dropWhile isJsWhitespace).reverse.dropWhile isJsWhitespace).reverse⟩

/-- ASCII lower-casing of one character, as `String.prototype.toLowerCase`
acts on the ASCII range (the only range the icon-map keys use). -/
def lowerAscii (c : Char) : Char :=
  if 65 ≤ c.toNat && c.toNat ≤ 90 then Char.ofNat (c.toNat + 32) else c

/-- JS `String.prototype.toLowerCase`, restricted to its ASCII action. -/
def jsToLowerCase (s : String) : String := ⟨s.data.map lowerAscii⟩

/-- Does the second list occur at the head of the first argument's tail?  Helper
for the substring test: `leadsWith needle hay` is true when `needle` is an
initial segment of `hay`. -/
def leadsWith : List Char → List Char → Bool
  | [], _ => true
  | _ :: _, [] => false
  | a :: an, b :: bn => a == b && leadsWith an bn

/-- Does `needle` occur contiguously anywhere in the list? -/
def containsSeq (needle : List Char) : List Char → Bool
  | [] => leadsWith needle []
  | c :: t => leadsWith needle (c :: t) || containsSeq needle t

/-- JS `hay.includes(needle)`. -/
def jsIncludes (hay needle : String) : Bool := containsSeq needle.data hay.data

/-- Decimal digit value of a character, `none` if it is not a digit. -/
def decDigitVal (c : Char) : Option Nat :=
  if 48 ≤ c.toNat && c.toNat ≤ 57 then some (c.toNat - 48) else none

/-- Hexadecimal digit value of a character, `none` if it is not a hex digit. -/
def hexDigitVal (c : Char) : Option Nat :=
  if 48 ≤ c.toNat && c.toNat ≤ 57 then some (c.toNat - 48)
  else if 97 ≤ c.toNat && c.toNat ≤ 102 then some (c.toNat - 87)
  else if 65 ≤ c.toNat && c.toNat ≤ 70 then some (c.toNat - 55)
  else none

/-- Values of the longest leading run of digits recognised by `dv`. -/
def takeDigitRun (dv : Char → Option Nat) : List Char → List Nat
  | [] => []
  | c :: t =>
    match dv c with
    | some d => d :: takeDigitRun dv t
    | none => []

/-- Value of a digit list read most-significant first. -/
def digitsToNat (base : Nat) (ds : List Nat) : Nat :=
  ds.foldl (fun acc d => acc * base + d) 0

/-- Split an optional leading sign off a character list; `true` means negative. -/
def splitSign : List Char → Bool × List Char
  | '-' :: t => (true, t)
  | '+' :: t => (false, t)
  | l => (false, l)

/-- JS `parseInt(s)` with the default radix handling: skip whitespace, read an
optional sign, detect a `0x`/`0X` prefix (hex) or fall back to decimal, read
the longest digit run, `none` for `NaN` (no digits). -/
def parseIntJS (s : String) : Option Int :=
  let p := splitSign (s.data.dropWhile isJsWhitespace)
  let q : Nat × (Char → Option Nat) × List Char :=
    match p.2 with
    | '0' :: 'x' :: t => (16, hexDigitVal, t)
    | '0' :: 'X' :: t => (16, hexDigitVal, t)
    | l => (10, decDigitVal, l)
  let ds := takeDigitRun q.2.1 q.2.2
  if ds.isEmpty then none
  else
    let n : Int := Int.ofNat (digitsToNat q.1 ds)
    some (if p.1 then -n else n)

/-! ## Weather icon map (`getWeatherIcon`, script.js lines 27-52) -/

/-- The `iconMap` object literal, in the insertion order `Object.entries`
iterates it. -/
def iconMap : List (String × String) :=
  [("sunny", "☀️"),
   ("clear", "☀️"),
   ("partly cloudy", "⛅"),
   ("cloudy", "☁️"),
   ("overcast", "☁️"),
   ("rainy", "🌧️"),
   ("light rain", "🌦️"),
   ("heavy rain", "🌧️"),
   ("thunderstorm", "⛈️"),
   ("snow", "❄️"),
   ("light snow", "🌨️"),
   ("heavy snow", "❄️"),
   ("fog", "🌫️"),
   ("mist", "🌫️")]

/-- The `for (const [key, icon] of Object.entries(iconMap))` loop: return the
icon of the first key contained in the lower-cased condition. -/
def getWeatherIconAux : List (String × String) → String → String
  | [], _ => "🌤️"
  | kv :: rest, lc => if jsIncludes lc kv.1 then kv.2 else getWeatherIconAux rest lc

/-- `getWeatherIcon(condition)`: case-insensitive first-substring-match lookup
in `iconMap`, with 🌤️ as the default icon. -/
def getWeatherIcon (condition : String) : String :=
  getWeatherIconAux iconMap (jsToLowerCase condition)

/-! ## Validator (`validateInput` lines 129-142, `utils.isValidCityName` lines 617-622) -/

/-- Character class of the source regex `[a-zA-Z\s\-,.']`. -/
def allowedChar (c : Char) : Bool :=
  (97 ≤ c.toNat && c.toNat ≤ 122) || (65 ≤ c.toNat && c.toNat ≤ 90) ||
  isJsWhitespace c || c.toNat == 45 || c.toNat == 44 || c.toNat == 46 || c.toNat == 39

/-- The test `/^[a-zA-Z\s\-,.']+$/.test(s)`: at least one character and every
character in the allow-list class. -/
def cityPatternTest (s : String) : Bool :=
  !s.data.isEmpty && s.data.all allowedChar

/-- `validateInput` (lines 129-142), reduced to the boolean it computes and
returns; note it has no length cap. -/
def validateInput (inputValue : String) : Bool :=
  let input := jsTrim inputValue
  decide (0 < input.length) && cityPatternTest input

/-- `utils.isValidCityName` (lines 617-622): trimmed, non-empty, at most 100
characters, and matching the allow-list pattern.  This is the spec's
`isValidQuery`. -/
def isValidCityName (cityName : String) : Bool :=
  let trimmed := jsTrim cityName
  decide (0 < trimmed.length) && decide (trimmed.length ≤ 100) && cityPatternTest trimmed

/-! ## Geocoding suggestions (`displaySuggestions` lines 192-228) -/

/-- One raw geocoding result: `{name, country?, admin1?}`.  The latitude and
longitude fields are carried opaquely into data attributes by the source and
play no part in any claim, so they are not modelled. -/
structure GeoResult where
  name : String
  country : Option String
  admin1 : Option String
deriving DecidableEq

/-- JS `x || ''` on an optional string field: an absent field behaves as the
empty string (and an empty string is falsy either way). -/
def orEmptyJs (o : Option String) : String := o.getD ""

/-- The `details` computation of `displaySuggestions` (lines 203-208): both
fields truthy gives "admin1, country", otherwise a truthy country alone is
used, otherwise the label stays empty. -/
def suggestionDetails (admin1 country : String) : String :=
  if admin1 ≠ "" ∧ country ≠ "" then admin1 ++ ", " ++ country
  else if country ≠ "" then country
  else ""

/-- Region label of one geocoding result as the source renders it. -/
def regionLabelOf (g : GeoResult) : String :=
  suggestionDetails (orEmptyJs g.admin1) (orEmptyJs g.country)

/-- Modelled from the spec: the spec's §4.3 sentence "`regionLabel` =
\"\x7badmin-region\x7d, \x7bcountry\x7d\" when both present, else whichever is
present, else empty".  Declared only to compare the spec's description with
the source's `suggestionDetails`; the code under `src/` stays the authority. -/
def specRegionLabel (admin1 country : String) : String :=
  if admin1 ≠ "" ∧ country ≠ "" then admin1 ++ ", " ++ country
  else if admin1 ≠ "" then admin1
  else if country ≠ "" then country
  else ""

/-- One rendered suggestion row: display name plus the details label. -/
structure SuggestionItem where
  name : String
  details : String
deriving DecidableEq

/-- Mapping of a raw geocoding result to its rendered suggestion row. -/
def suggestionItemOf (g : GeoResult) : SuggestionItem :=
  { name := g.name, details := regionLabelOf g }

/-! ## Weather payload and rendering (`displayWeatherData` lines 395-431) -/

/-- One element of `current_condition`; the `weatherDesc` array of
`\x7bvalue\x7d` wrappers is flattened to its list of values. -/
structure CurrentCondition where
  temp_C : String
  temp_F : String
  FeelsLikeC : String
  FeelsLikeF : String
  humidity : String
  visibility : String
  windspeedKmph : String
  windspeedMiles : String
  pressure : String
  weatherDesc : List String
deriving DecidableEq

/-- One element of `nearest_area`; the `areaName`/`country` arrays of
`\x7bvalue\x7d` wrappers are flattened to their lists of values. -/
structure NearestArea where
  areaName : List String
  country : List String
deriving DecidableEq

/-- Parsed weather-endpoint JSON body.  `none` on a field models the field
being absent from the payload, so that indexing it throws. -/
structure WeatherPayload where
  current_condition : Option (List CurrentCondition)
  nearest_area : Option (List NearestArea)
deriving DecidableEq

/-- Unit preference: `this.currentUnit`, either `'metric'` or `'imperial'`. -/
inductive UnitPref where
  | metric
  | imperial
deriving DecidableEq

/-- The ternary of line 464: `currentUnit === 'metric' ? 'imperial' : 'metric'`. -/
def flipUnit : UnitPref → UnitPref
  | UnitPref.metric => UnitPref.imperial
  | UnitPref.imperial => UnitPref.metric

/-- `formatWindSpeed` (lines 436-442). -/
def formatWindSpeed (u : UnitPref) (speedKmph speedMiles : String) : String :=
  if u = UnitPref.metric then speedKmph ++ " km/h" else speedMiles ++ " mph"

/-- The weather DOM fields `displayWeatherData` writes (the date-time line,
which reads the wall clock, is not modelled).  Temperatures are kept as the
`parseInt` results; `none` renders as `NaN`. -/
structure RenderedWeather where
  cityName : String
  countryName : String
  icon : String
  iconAlt : String
  temperature : Option Int
  temperatureUnit : String
  description : String
  feelsLike : Option Int
  feelsLikeUnit : String
  visibilityText : String
  humidityText : String
  windSpeedText : String
  pressureText : String
deriving DecidableEq

/-- Message carried into the error panel by `showError(error.message)`. -/
inductive JsErrorMsg where
  /-- Text the application itself passed to `new Error(...)` or `showError(...)`. -/
  | ofApp (s : String)
  /-- Engine message of a rejected `fetch` (transport failure); its exact text
  is engine-defined and is none of the application's own strings. -/
  | fetchFailed
  /-- Engine `TypeError` message from a property access on `undefined` (a
  missing payload array); engine-defined text, none of the app's strings. -/
  | undefinedAccess
  /-- Engine `SyntaxError` message from `response.json()` on an invalid body. -/
  | jsonDecodeFailed
deriving DecidableEq

/-- `displayWeatherData` (lines 395-431) up to the DOM writes: it fails with
the thrown `TypeError` exactly when one of the indexing steps of lines
396-405 hits `undefined`, and otherwise produces the rendered fields.  The
matches follow the order in which the source dereferences the payload. -/
def displayWeatherData (u : UnitPref) (data : WeatherPayload) : Except Unit RenderedWeather :=
  match data.current_condition with
  | none => Except.error ()
  | some ccList =>
    match data.nearest_area with
    | none => Except.error ()
    | some naList =>
      match naList with
      | [] => Except.error ()
      | nearest :: _ =>
        match nearest.areaName with
        | [] => Except.error ()
        | area :: _ =>
          match nearest.country with
          | [] => Except.error ()
          | ctry :: _ =>
            match ccList with
            | [] => Except.error ()
            | current :: _ =>
              match current.weatherDesc with
              | [] => Except.error ()
              | desc :: _ =>
                Except.ok
                  { cityName := area
                    countryName := ctry
                    icon := getWeatherIcon desc
                    iconAlt := desc
                    temperature :=
                      if u = UnitPref.metric then parseIntJS current.temp_C
                      else parseIntJS current.temp_F
                    temperatureUnit := if u = UnitPref.metric then "°C" else "°F"
                    description := desc
                    feelsLike :=
                      if u = UnitPref.metric then parseIntJS current.FeelsLikeC
                      else parseIntJS current.FeelsLikeF
                    feelsLikeUnit := if u = UnitPref.metric then "°C" else "°F"
                    visibilityText := current.visibility ++ " km"
                    humidityText := current.humidity ++ "%"
                    windSpeedText := formatWindSpeed u current.windspeedKmph current.windspeedMiles
                    pressureText := current.pressure ++ " mb" }

/-! ## UI state and panel operations (lines 487-513) -/

/-- Visibility of the four display sections (`true` = `hidden` class absent). -/
structure Panels where
  welcome : Bool
  loading : Bool
  weather : Bool
  error : Bool
deriving DecidableEq

/-- Number of visible panels. -/
def panelCount (p : Panels) : Nat :=
  (if p.welcome then 1 else 0) + (if p.loading then 1 else 0) +
  (if p.weather then 1 else 0) + (if p.error then 1 else 0)

/-- Mutual-exclusivity predicate on the four panels. -/
def exactlyOneVisible (p : Panels) : Bool := panelCount p == 1

/-- The mutable UI-facing state of the `WeatherApp` instance. -/
structure UiState where
  panels : Panels
  errorMessage : Option JsErrorMsg
  suggestionsHidden : Bool
  searchTimeout : Option String
  rendered : Option RenderedWeather
deriving DecidableEq

/-- `hideAllSections` (lines 508-513): add the `hidden` class to all four. -/
def hideAllSections (ui : UiState) : UiState :=
  { ui with panels := { welcome := false, loading := false, weather := false, error := false } }

/-- `showWelcomeState` (lines 487-490). -/
def showWelcomeState (ui : UiState) : UiState :=
  let u := hideAllSections ui
  { u with panels := { u.panels with welcome := true } }

/-- `showLoadingState` (lines 492-495). -/
def showLoadingState (ui : UiState) : UiState :=
  let u := hideAllSections ui
  { u with panels := { u.panels with loading := true } }

/-- `showWeatherState` (lines 497-500). -/
def showWeatherState (ui : UiState) : UiState :=
  let u := hideAllSections ui
  { u with panels := { u.panels with weather := true } }

/-- `showError` (lines 502-506): hide all, set the message, show the panel. -/
def showError (message : JsErrorMsg) (ui : UiState) : UiState :=
  let u := hideAllSections ui
  { u with errorMessage := some message, panels := { u.panels with error := true } }

/-- The four state-entry operations as transitions. -/
inductive UiOp where
  | welcome
  | loading
  | weather (rw : RenderedWeather)
  | error (m : JsErrorMsg)

/-- Apply one state-entry operation (for the result state, the rendered fields
are written before `showWeatherState` runs, as in lines 400-430). -/
def applyUiOp : UiOp → UiState → UiState
  | UiOp.welcome, ui => showWelcomeState ui
  | UiOp.loading, ui => showLoadingState ui
  | UiOp.weather rw, ui => showWeatherState { ui with rendered := some rw }
  | UiOp.error m, ui => showError m ui

/-- Apply a sequence of state-entry operations, oldest first. -/
def applyUiOps : List UiOp → UiState → UiState
  | [], ui => ui
  | op :: rest, ui => applyUiOps rest (applyUiOp op ui)

/-- UI state at startup: the constructor calls `showWelcomeState`, the dropdown
is hidden and nothing is rendered. -/
def initUi : UiState :=
  { panels := { welcome := true, loading := false, weather := false, error := false }
    errorMessage := none
    suggestionsHidden := true
    searchTimeout := none
    rendered := none }

/-! ## Weather fetch (`getErrorMessage` lines 375-390, `fetchWeatherData` lines 349-370) -/

/-- `response.ok` of the Fetch API: status in the inclusive range 200-299. -/
def respOk (status : Nat) : Bool := decide (200 ≤ status ∧ status ≤ 299)

/-- A completed HTTP response: its status and, when the body is valid JSON,
the parsed payload (`none` models `response.json()` rejecting). -/
structure HttpResponse where
  status : Nat
  body : Option WeatherPayload
deriving DecidableEq

/-- `getErrorMessage(status)` (lines 375-390); the 500/502/503 cases share one
message by switch fall-through. -/
def getErrorMessage (status : Nat) : String :=
  if status = 401 then "API key is invalid. Please check your configuration."
  else if status = 404 then "City not found. Please check the spelling and try again."
  else if status = 429 then "Too many requests. Please wait a moment and try again."
  else if status = 500 ∨ status = 502 ∨ status = 503 then
    "Weather service is temporarily unavailable. Please try again later."
  else "Unable to fetch weather data. Please check your internet connection and try again."

/-- `fetchWeatherData` (lines 349-370): show the loading state, then settle the
awaited response.  `resp = none` models the `fetch` call itself rejecting
(transport failure).  A non-ok status throws `new Error(getErrorMessage)`, a
bad body makes `response.json()` reject, and a malformed payload makes
`displayWeatherData` throw; every throw lands in the catch, which logs and
calls `showError(error.message)`. -/
def fetchWeatherData (u : UnitPref) (resp : Option HttpResponse) (ui : UiState) : UiState :=
  let ui1 := showLoadingState ui
  match resp with
  | none => showError JsErrorMsg.fetchFailed ui1
  | some r =>
    if respOk r.status then
      match r.body with
      | none => showError JsErrorMsg.jsonDecodeFailed ui1
      | some data =>
        match displayWeatherData u data with
        | Except.error _ => showError JsErrorMsg.undefinedAccess ui1
        | Except.ok rw => showWeatherState { ui1 with rendered := some rw }
    else
      showError (JsErrorMsg.ofApp (getErrorMessage r.status)) ui1

/-- The session state around the UI: unit preference and the cached city. -/
structure AppState where
  currentUnit : UnitPref
  currentCity : String
  ui : UiState
deriving DecidableEq

/-- `toggleTemperatureUnit` (lines 463-482): flip the unit (the toggle-button
class shuffling is DOM-only and not modelled) and, when a current city is
cached, re-fetch it.  The second component lists the cities fetched by this
activation, and `resp` is the response the single fetch (if any) settles
with. -/
def toggleTemperatureUnit (resp : Option HttpResponse) (s : AppState) : AppState × List String :=
  let newUnit := flipUnit s.currentUnit
  if s.currentCity ≠ "" then
    ({ currentUnit := newUnit, currentCity := s.currentCity
       ui := fetchWeatherData newUnit resp s.ui }, [s.currentCity])
  else
    ({ s with currentUnit := newUnit }, [])

/-! ## Suggestion fetch and input debounce (lines 147-187, 593-603) -/

/-- Outcome of one suggestion fetch, as `fetchSuggestions` awaits it. -/
inductive SuggFetchOutcome where
  /-- The `fetch` call rejected (transport failure). -/
  | transportFail
  /-- `response.ok` was false, so line 177 threw. -/
  | badStatus
  /-- `response.json()` rejected (malformed body). -/
  | parseFail
  /-- Parsed body; `results` is `none` when the field is absent. -/
  | success (results : Option (List GeoResult))
deriving DecidableEq

/-- Does the outcome leave the user without suggestions (failure or an
empty/missing result list)? -/
def suggFetchFailed : SuggFetchOutcome → Bool
  | SuggFetchOutcome.transportFail => true
  | SuggFetchOutcome.badStatus => true
  | SuggFetchOutcome.parseFail => true
  | SuggFetchOutcome.success rs => (rs.getD []).isEmpty

/-- `showSuggestions` (lines 246-248). -/
def showSuggestions (ui : UiState) : UiState := { ui with suggestionsHidden := false }

/-- `hideSuggestions` (lines 253-255). -/
def hideSuggestions (ui : UiState) : UiState := { ui with suggestionsHidden := true }

/-- `displaySuggestions` (lines 192-228): an empty list hides the dropdown,
otherwise the rows are rendered and the dropdown shown. -/
def displaySuggestions (suggestions : List GeoResult) (ui : UiState) : UiState :=
  if suggestions.isEmpty then hideSuggestions ui
  else showSuggestions ui

/-- `fetchSuggestions` (lines 169-187): show the loading row, then settle the
response.  Every failure lands in the catch, which only logs and hides the
dropdown; on success `data.results || []` feeds `displaySuggestions`. -/
def fetchSuggestions (outcome : SuggFetchOutcome) (ui : UiState) : UiState :=
  let ui1 := showSuggestions ui
  match outcome with
  | SuggFetchOutcome.success rs => displaySuggestions (rs.getD []) ui1
  | _ => hideSuggestions ui1

/-- `handleInputChange` (lines 147-164): always clear the pending timer; a
trimmed query shorter than 2 hides the dropdown and schedules nothing,
otherwise a new timer is scheduled with the trimmed query. -/
def handleInputChange (inputValue : String) (ui : UiState) : UiState :=
  let query := jsTrim inputValue
  if query.length < 2 then
    { ui with searchTimeout := none, suggestionsHidden := true }
  else
    { ui with searchTimeout := some query }

/-- Events driving the suggestion pipeline: an `input` DOM event, or the
pending debounce timer expiring. -/
inductive InputEvent where
  | input (v : String)
  | timerFire

/-- One event step; the second component lists the queries for which a
suggestion fetch is issued by this step (the timer callback of line 161
runs `fetchSuggestions(query)` when it fires). -/
def inputStep : InputEvent → UiState → UiState × List String
  | InputEvent.input v, ui => (handleInputChange v ui, [])
  | InputEvent.timerFire, ui =>
    match ui.searchTimeout with
    | some q => ({ ui with searchTimeout := none }, [q])
    | none => (ui, [])

/-- Events seen by one debounced function from `utils.debounce` (lines
593-603): an invocation of the wrapper, or the scheduled timer expiring. -/
inductive DebEvent (α : Type) where
  | call (a : α)
  | fire
deriving DecidableEq

/-- Run of `utils.debounce`'s closure state: each `call` replaces the pending
timer with one holding its argument; `fire` invokes the wrapped function with
the pending argument and clears it.  Returns the arguments of the actual
invocations of the wrapped function, in order. -/
def debounceRun {α : Type} : List (DebEvent α) → Option α → List α
  | [], _ => []
  | DebEvent.call a :: es, _ => debounceRun es (some a)
  | DebEvent.fire :: es, some a => a :: debounceRun es none
  | DebEvent.fire :: es, none => debounceRun es none

/-! ## Sample data used by concrete witnesses -/

/-- A well-formed `current_condition` element for concrete runs. -/
def sampleCC : CurrentCondition :=
  { temp_C := "20", temp_F := "68", FeelsLikeC := "19", FeelsLikeF := "66",
    humidity := "60", visibility := "10", windspeedKmph := "15", windspeedMiles := "9",
    pressure := "1012", weatherDesc := ["Sunny"] }

/-- A well-formed `nearest_area` element for concrete runs. -/
def sampleNA : NearestArea := { areaName := ["London"], country := ["United Kingdom"] }

/-- A well-formed weather payload for concrete runs. -/
def samplePayload : WeatherPayload :=
  { current_condition := some [sampleCC], nearest_area := some [sampleNA] }

/-- A session state with a cached city and the initial UI. -/
def sampleApp : AppState :=
  { currentUnit := UnitPref.metric, currentCity := "London", ui := initUi }

/-! ## Helper lemmas -/

/-- The icon-lookup loop returns the first map entry whose key occurs in the
lower-cased condition, with 🌤️ when none does. -/
theorem getWeatherIconAux_eq_find (lc : String) (m : List (String × String)) :
    getWeatherIconAux m lc =
      (((m.find? fun kv => jsIncludes lc kv.1).map Prod.snd).getD "🌤️") := by
  induction m with
  | nil => rfl
  | cons kv rest ih =>
    by_cases h : jsIncludes lc kv.1
    · simp [getWeatherIconAux, List.find?_cons_of_pos, h]
    · simp [getWeatherIconAux, List.find?_cons_of_neg, h, ih]

/-- The icon-lookup loop never returns an empty string when every icon in the
map is non-empty. -/
theorem getWeatherIconAux_ne_empty (lc : String) (m : List (String × String))
    (h : ∀ kv ∈ m, kv.2 ≠ "") : getWeatherIconAux m lc ≠ "" := by
  induction m with
  | nil =>
    show "🌤️" ≠ ""
    decide
  | cons kv rest ih =>
    simp only [getWeatherIconAux]
    by_cases hc : jsIncludes lc kv.1
    · simpa [hc] using h kv (by simp)
    · simpa [hc] using ih fun x hx => h x (by simp [hx])

/-- Every state-entry operation yields a panel configuration with exactly one
visible panel. -/
theorem applyUiOp_exactlyOne (op : UiOp) (ui : UiState) :
    exactlyOneVisible ((applyUiOp op ui).panels) = true := by
  cases op <;> rfl

/-- The exactly-one-visible invariant is preserved by any sequence of
state-entry operations. -/
theorem applyUiOps_exactlyOne (ops : List UiOp) (ui : UiState)
    (h : exactlyOneVisible ui.panels = true) :
    exactlyOneVisible ((applyUiOps ops ui).panels) = true := by
  induction ops generalizing ui with
  | nil => exact h
  | cons op rest ih => exact ih (applyUiOp op ui) (applyUiOp_exactlyOne op ui)

/-- A payload missing either required array makes `displayWeatherData` throw. -/
theorem displayWeatherData_malformed (u : UnitPref) (p : WeatherPayload)
    (h : p.current_condition = none ∨ p.nearest_area = none) :
    displayWeatherData u p = Except.error () := by
  obtain ⟨cc, na⟩ := p
  rcases h with h | h
  · simp only at h
    subst h
    rfl
  · simp only at h
    subst h
    cases cc <;> rfl

/-- The last element of a cons cell via `getLastD` of its tail. -/
theorem getLast?_eq_some_getLastD {α : Type} (a : α) (t : List α) :
    (a :: t).getLast? = some (t.getLastD a) := by
  induction t generalizing a with
  | nil => rfl
  | cons b t2 ih => rw [List.getLast?_cons_cons, ih b, List.getLastD_cons]

/-- With a timer already pending, a run of calls followed by the timer expiry
invokes the wrapped function once, with the last call's argument. -/
theorem debounceRun_calls_last {α : Type} (as : List α) (a : α) :
    debounceRun (as.map DebEvent.call ++ [DebEvent.fire]) (some a) = [as.getLastD a] := by
  induction as generalizing a with
  | nil => rfl
  | cons b t ih =>
    have step : debounceRun ((b :: t).map DebEvent.call ++ [DebEvent.fire]) (some a) =
        debounceRun (t.map DebEvent.call ++ [DebEvent.fire]) (some b) := rfl
    rw [step, ih b, List.getLastD_cons]

/-! ## Claim theorems -/

/-- C1: for every non-success HTTP status from the weather endpoint, the fetch
fails and the user-facing message is exactly the one `getErrorMessage` selects
(401, 404, 429, 500/502/503 as tabulated, otherwise the generic message), and
the Error panel is shown with the other three panels hidden. -/
theorem c1_weather_error_messages (u : UnitPref) (status : Nat) (body : Option WeatherPayload)
    (ui : UiState) (h : respOk status = false) :
    (fetchWeatherData u (some { status := status, body := body }) ui).panels =
      { welcome := false, loading := false, weather := false, error := true } ∧
    (fetchWeatherData u (some { status := status, body := body }) ui).errorMessage =
      some (JsErrorMsg.ofApp (getErrorMessage status)) ∧
    getErrorMessage 401 = "API key is invalid. Please check your configuration." ∧
    getErrorMessage 404 = "City not found. Please check the spelling and try again." ∧
    getErrorMessage 429 = "Too many requests. Please wait a moment and try again." ∧
    getErrorMessage 500 = "Weather service is temporarily unavailable. Please try again later." ∧
    getErrorMessage 502 = "Weather service is temporarily unavailable. Please try again later." ∧
    getErrorMessage 503 = "Weather service is temporarily unavailable. Please try again later." ∧
    (∀ st : Nat, st ≠ 401 → st ≠ 404 → st ≠ 429 → st ≠ 500 → st ≠ 502 → st ≠ 503 →
      getErrorMessage st =
        "Unable to fetch weather data. Please check your internet connection and try again.") := by
  have hred : fetchWeatherData u (some { status := status, body := body }) ui =
      showError (JsErrorMsg.ofApp (getErrorMessage status)) (showLoadingState ui) := by
    simp [fetchWeatherData, h]
  refine ⟨by rw [hred]; rfl, by rw [hred]; rfl, by decide, by decide, by decide, by decide,
    by decide, by decide, ?_⟩
  intro st h1 h2 h3 h4 h5 h6
  simp [getErrorMessage, h1, h2, h3, h4, h5, h6]

/-- Witness for C1 at status 404. -/
theorem c1_weather_error_messages_witness :
    respOk 404 = false ∧
    (fetchWeatherData UnitPref.metric (some { status := 404, body := none }) initUi).errorMessage =
      some (JsErrorMsg.ofApp "City not found. Please check the spelling and try again.") := by
  refine ⟨by decide, ?_⟩
  have h := c1_weather_error_messages UnitPref.metric 404 none initUi (by decide)
  exact h.2.1.trans (by decide)

/-- C2: every state-entry operation hides all four panels and then shows
exactly the one panel of the entered state (its result is independent of the
previous panel configuration), so after any sequence of transitions starting
from the welcome state exactly one panel is visible. -/
theorem c2_exactly_one_panel :
    (∀ (ui : UiState) (op : UiOp), exactlyOneVisible ((applyUiOp op ui).panels) = true) ∧
    (∀ (ui ui2 : UiState) (op : UiOp), (applyUiOp op ui).panels = (applyUiOp op ui2).panels) ∧
    (∀ (ops : List UiOp) (ui : UiState),
      exactlyOneVisible ((applyUiOps ops (showWelcomeState ui)).panels) = true) := by
  refine ⟨fun ui op => applyUiOp_exactlyOne op ui, fun ui ui2 op => ?_, fun ops ui => ?_⟩
  · cases op <;> rfl
  · exact applyUiOps_exactlyOne ops (showWelcomeState ui) rfl

/-- C3: the validator with the length cap (`utils.isValidCityName`, the spec's
`isValidQuery`) accepts exactly the strings whose trimmed form is non-empty,
at most 100 characters, and matched by `^[a-zA-Z\s\-,.']+$`; in particular any
string whose trimmed length exceeds 100 is rejected. -/
theorem c3_validator_iff (s : String) :
    (isValidCityName s = true ↔
      0 < (jsTrim s).length ∧ (jsTrim s).length ≤ 100 ∧
      (jsTrim s).data ≠ [] ∧ ∀ c ∈ (jsTrim s).data, allowedChar c = true) ∧
    (100 < (jsTrim s).length → isValidCityName s = false) := by
  constructor
  · simp only [isValidCityName, cityPatternTest, Bool.and_eq_true, decide_eq_true_eq,
      Bool.not_eq_true', List.isEmpty_eq_false, List.all_eq_true]
    constructor
    · rintro ⟨⟨h1, h2⟩, h3, h4⟩
      exact ⟨h1, h2, h3, h4⟩
    · rintro ⟨h1, h2, h3, h4⟩
      exact ⟨⟨h1, h2⟩, h3, h4⟩
  · intro h
    have h100 : ¬ ((jsTrim s).length ≤ 100) := by omega
    simp [isValidCityName, h100]

/-- Witness for C3 at a 101-character all-letter string. -/
theorem c3_validator_witness :
    isValidCityName (String.mk (List.replicate 101 'a')) = false :=
  (c3_validator_iff (String.mk (List.replicate 101 'a'))).2 (by decide)

/-- C4 counterexample: for a geocoding result with an admin region but no
country, the source renders an empty region label while the spec's rule
("whichever is present") yields the admin region. -/
theorem c4_counterexample :
    regionLabelOf { name := "Munich", country := none, admin1 := some "Bavaria" } = "" ∧
    specRegionLabel (orEmptyJs (some "Bavaria")) (orEmptyJs (none : Option String)) = "Bavaria" ∧
    regionLabelOf { name := "Munich", country := none, admin1 := some "Bavaria" } ≠
      specRegionLabel (orEmptyJs (some "Bavaria")) (orEmptyJs (none : Option String)) := by
  decide

/-- C4 amended: the region label equals "admin1, country" when both fields are
present (non-empty), equals the country when only the country is present, and
is empty whenever the country is absent — including when only the admin region
is present. -/
theorem c4_region_label (g : GeoResult) :
    (orEmptyJs g.admin1 ≠ "" → orEmptyJs g.country ≠ "" →
      regionLabelOf g = orEmptyJs g.admin1 ++ ", " ++ orEmptyJs g.country) ∧
    (orEmptyJs g.admin1 = "" → orEmptyJs g.country ≠ "" →
      regionLabelOf g = orEmptyJs g.country) ∧
    (orEmptyJs g.country = "" → regionLabelOf g = "") := by
  refine ⟨fun h1 h2 => ?_, fun h1 h2 => ?_, fun h1 => ?_⟩
  · simp [regionLabelOf, suggestionDetails, h1, h2]
  · simp [regionLabelOf, suggestionDetails, h1, h2]
  · simp [regionLabelOf, suggestionDetails, h1]

/-- Witness for C4's amended statement at a country-free result. -/
theorem c4_region_label_witness :
    regionLabelOf { name := "Lima", country := none, admin1 := some "Lima Region" } = "" :=
  (c4_region_label { name := "Lima", country := none, admin1 := some "Lima Region" }).2.2 (by decide)

/-- C5 counterexample: for an OK response whose payload lacks the
current-conditions array, the displayed message is the engine's TypeError
message from the failed indexing (modelled by the `undefinedAccess`
constructor, whose text the application never sets), not the generic
transport message the claim states; the Error panel is shown. -/
theorem c5_counterexample :
    (fetchWeatherData UnitPref.metric
        (some { status := 200,
                body := some { current_condition := none,
                               nearest_area := some [{ areaName := ["London"],
                                                       country := ["United Kingdom"] }] } })
        initUi).errorMessage = some JsErrorMsg.undefinedAccess ∧
    some JsErrorMsg.undefinedAccess ≠
      some (JsErrorMsg.ofApp
        "Unable to fetch weather data. Please check your internet connection and try again.") ∧
    (fetchWeatherData UnitPref.metric
        (some { status := 200,
                body := some { current_condition := none,
                               nearest_area := some [{ areaName := ["London"],
                                                       country := ["United Kingdom"] }] } })
        initUi).panels.error = true := by
  decide

/-- C5 amended: for every OK response whose payload lacks the
current-conditions array or the nearest-area array, the fetch fails via the
thrown TypeError and the Error panel is shown with the engine-generated
exception message (not the generic status-table message), with the same panel
configuration (and hence the same retry availability) as a transport
failure. -/
theorem c5_malformed_response (u : UnitPref) (status : Nat) (p : WeatherPayload) (ui : UiState)
    (hok : respOk status = true)
    (hmal : p.current_condition = none ∨ p.nearest_area = none) :
    (fetchWeatherData u (some { status := status, body := some p }) ui).panels =
      { welcome := false, loading := false, weather := false, error := true } ∧
    (fetchWeatherData u (some { status := status, body := some p }) ui).errorMessage =
      some JsErrorMsg.undefinedAccess ∧
    (fetchWeatherData u none ui).panels =
      (fetchWeatherData u (some { status := status, body := some p }) ui).panels := by
  have hd := displayWeatherData_malformed u p hmal
  have hred : fetchWeatherData u (some { status := status, body := some p }) ui =
      showError JsErrorMsg.undefinedAccess (showLoadingState ui) := by
    simp [fetchWeatherData, hok, hd]
  rw [hred]
  exact ⟨rfl, rfl, rfl⟩

/-- Witness for C5's amended statement at a payload missing both arrays. -/
theorem c5_malformed_response_witness :
    (fetchWeatherData UnitPref.metric
        (some { status := 200, body := some { current_condition := none, nearest_area := none } })
        initUi).errorMessage = some JsErrorMsg.undefinedAccess :=
  (c5_malformed_response UnitPref.metric 200
    { current_condition := none, nearest_area := none } initUi (by decide) (Or.inl rfl)).2.1

/-- C6: an input event whose trimmed query is shorter than 2 characters hides
the dropdown immediately, cancels any pending debounce timer, issues no
suggestion fetch, and leaves no timer that could fire later. -/
theorem c6_short_query_no_fetch (v : String) (ui : UiState) (h : (jsTrim v).length < 2) :
    (inputStep (InputEvent.input v) ui).1.suggestionsHidden = true ∧
    (inputStep (InputEvent.input v) ui).1.searchTimeout = none ∧
    (inputStep (InputEvent.input v) ui).2 = [] ∧
    (inputStep InputEvent.timerFire (inputStep (InputEvent.input v) ui).1).2 = [] := by
  have hh : handleInputChange v ui = { ui with searchTimeout := none, suggestionsHidden := true } := by
    simp [handleInputChange, h]
  refine ⟨?_, ?_, rfl, ?_⟩
  · show (handleInputChange v ui).suggestionsHidden = true
    rw [hh]
  · show (handleInputChange v ui).searchTimeout = none
    rw [hh]
  · show (inputStep InputEvent.timerFire (handleInputChange v ui)).2 = []
    rw [hh]
    rfl

/-- Witness for C6 on the one-character query "a" with a timer pending. -/
theorem c6_short_query_no_fetch_witness :
    (inputStep (InputEvent.input "a") { initUi with searchTimeout := some "lon" }).1.searchTimeout =
      none ∧
    (inputStep (InputEvent.input "a") { initUi with searchTimeout := some "lon" }).2 = [] :=
  ⟨(c6_short_query_no_fetch "a" { initUi with searchTimeout := some "lon" } (by decide)).2.1,
   (c6_short_query_no_fetch "a" { initUi with searchTimeout := some "lon" } (by decide)).2.2.1⟩

/-- C7: scheduling any non-empty run of debounce calls within the delay window
(no timer expiry between them) and then letting the timer expire invokes the
wrapped callback exactly once, with the arguments of the last call. -/
theorem c7_debounce_single_invocation {α : Type} (as : List α) (last : α)
    (h : as.getLast? = some last) :
    debounceRun (as.map DebEvent.call ++ [DebEvent.fire]) none = [last] := by
  cases as with
  | nil => simp [List.getLast?] at h
  | cons a t =>
    have h2 : t.getLastD a = last := by
      rw [getLast?_eq_some_getLastD] at h
      exact Option.some.inj h
    calc debounceRun ((a :: t).map DebEvent.call ++ [DebEvent.fire]) none
        = debounceRun (t.map DebEvent.call ++ [DebEvent.fire]) (some a) := rfl
      _ = [t.getLastD a] := debounceRun_calls_last t a
      _ = [last] := by rw [h2]

/-- Witness for C7 on three calls: only the last argument is delivered. -/
theorem c7_debounce_single_invocation_witness :
    debounceRun (["pa", "par", "pari"].map DebEvent.call ++ [DebEvent.fire]) none = ["pari"] :=
  c7_debounce_single_invocation ["pa", "par", "pari"] "pari" (by decide)

/-- C8: every suggestion-fetch failure (transport failure, non-success status,
malformed body, or an empty/missing result list) ends with the dropdown
hidden, and no suggestion-fetch outcome whatsoever ever changes the display
panels or the error message — the failure is fully swallowed. -/
theorem c8_suggestion_failures_swallowed (o : SuggFetchOutcome) (ui : UiState)
    (h : suggFetchFailed o = true) :
    (fetchSuggestions o ui).suggestionsHidden = true ∧
    (∀ (o2 : SuggFetchOutcome) (ui2 : UiState),
      (fetchSuggestions o2 ui2).panels = ui2.panels ∧
      (fetchSuggestions o2 ui2).errorMessage = ui2.errorMessage) := by
  constructor
  · cases o with
    | transportFail => rfl
    | badStatus => rfl
    | parseFail => rfl
    | success rs =>
      simp only [suggFetchFailed] at h
      simp [fetchSuggestions, displaySuggestions, h, hideSuggestions, showSuggestions]
  · intro o2 ui2
    cases o2 with
    | transportFail => exact ⟨rfl, rfl⟩
    | badStatus => exact ⟨rfl, rfl⟩
    | parseFail => exact ⟨rfl, rfl⟩
    | success rs =>
      by_cases hrs : (rs.getD []).isEmpty = true
      · simp [fetchSuggestions, displaySuggestions, hrs, hideSuggestions, showSuggestions]
      · simp [fetchSuggestions, displaySuggestions, hrs, hideSuggestions, showSuggestions]

/-- Witness for C8 at a non-success HTTP status. -/
theorem c8_suggestion_failures_swallowed_witness :
    (fetchSuggestions SuggFetchOutcome.badStatus initUi).suggestionsHidden = true ∧
    (fetchSuggestions SuggFetchOutcome.badStatus initUi).panels = initUi.panels :=
  ⟨(c8_suggestion_failures_swallowed SuggFetchOutcome.badStatus initUi (by decide)).1,
   ((c8_suggestion_failures_swallowed SuggFetchOutcome.badStatus initUi (by decide)).2
      SuggFetchOutcome.badStatus initUi).1⟩

/-- C9: activating the unit toggle with a current city set flips the unit
preference, issues exactly one new fetch for that same city, and on a
successful response re-renders with the new unit's independently sourced
payload fields (temp_C/FeelsLikeC/windspeedKmph for metric,
temp_F/FeelsLikeF/windspeedMiles for imperial) with no conversion
arithmetic. -/
theorem c9_unit_toggle_refetch (s : AppState) (status : Nat) (p : WeatherPayload)
    (cc : CurrentCondition) (ccs : List CurrentCondition)
    (na : NearestArea) (nas : List NearestArea)
    (a c d : String) (al cl dl : List String)
    (hcity : s.currentCity ≠ "")
    (hok : respOk status = true)
    (hcc : p.current_condition = some (cc :: ccs))
    (hna : p.nearest_area = some (na :: nas))
    (han : na.areaName = a :: al)
    (hco : na.country = c :: cl)
    (hwd : cc.weatherDesc = d :: dl) :
    (toggleTemperatureUnit (some { status := status, body := some p }) s).2 = [s.currentCity] ∧
    (toggleTemperatureUnit (some { status := status, body := some p }) s).1.currentUnit =
      flipUnit s.currentUnit ∧
    (toggleTemperatureUnit (some { status := status, body := some p }) s).1.ui.panels =
      { welcome := false, loading := false, weather := true, error := false } ∧
    (toggleTemperatureUnit (some { status := status, body := some p }) s).1.ui.rendered = some
      { cityName := a
        countryName := c
        icon := getWeatherIcon d
        iconAlt := d
        temperature :=
          if flipUnit s.currentUnit = UnitPref.metric then parseIntJS cc.temp_C
          else parseIntJS cc.temp_F
        temperatureUnit := if flipUnit s.currentUnit = UnitPref.metric then "°C" else "°F"
        description := d
        feelsLike :=
          if flipUnit s.currentUnit = UnitPref.metric then parseIntJS cc.FeelsLikeC
          else parseIntJS cc.FeelsLikeF
        feelsLikeUnit := if flipUnit s.currentUnit = UnitPref.metric then "°C" else "°F"
        visibilityText := cc.visibility ++ " km"
        humidityText := cc.humidity ++ "%"
        windSpeedText :=
          if flipUnit s.currentUnit = UnitPref.metric then cc.windspeedKmph ++ " km/h"
          else cc.windspeedMiles ++ " mph"
        pressureText := cc.pressure ++ " mb" } := by
  have hdisp : displayWeatherData (flipUnit s.currentUnit) p = Except.ok
      { cityName := a
        countryName := c
        icon := getWeatherIcon d
        iconAlt := d
        temperature :=
          if flipUnit s.currentUnit = UnitPref.metric then parseIntJS cc.temp_C
          else parseIntJS cc.temp_F
        temperatureUnit := if flipUnit s.currentUnit = UnitPref.metric then "°C" else "°F"
        description := d
        feelsLike :=
          if flipUnit s.currentUnit = UnitPref.metric then parseIntJS cc.FeelsLikeC
          else parseIntJS cc.FeelsLikeF
        feelsLikeUnit := if flipUnit s.currentUnit = UnitPref.metric then "°C" else "°F"
        visibilityText := cc.visibility ++ " km"
        humidityText := cc.humidity ++ "%"
        windSpeedText :=
          if flipUnit s.currentUnit = UnitPref.metric then cc.windspeedKmph ++ " km/h"
          else cc.windspeedMiles ++ " mph"
        pressureText := cc.pressure ++ " mb" } := by
    simp only [displayWeatherData, hcc, hna, han, hco, hwd]
    simp [formatWindSpeed]
  refine ⟨?_, ?_, ?_, ?_⟩ <;>
    simp [toggleTemperatureUnit, hcity, fetchWeatherData, hok, hdisp, showWeatherState,
      showLoadingState, hideAllSections]

/-- Witness for C9 on a concrete metric-to-imperial toggle. -/
theorem c9_unit_toggle_refetch_witness :
    (toggleTemperatureUnit (some { status := 200, body := some samplePayload }) sampleApp).2 =
      ["London"] ∧
    (toggleTemperatureUnit (some { status := 200, body := some samplePayload })
        sampleApp).1.currentUnit = UnitPref.imperial := by
  have h := c9_unit_toggle_refetch sampleApp 200 samplePayload sampleCC [] sampleNA []
    "London" "United Kingdom" "Sunny" [] [] []
    (by decide) (by decide) rfl rfl rfl rfl rfl
  exact ⟨h.1, h.2.1⟩

/-- C10: the weather-icon mapping is total — it returns the icon of the first
map entry (in the fixed insertion order) whose key is a case-insensitive
substring of the condition, returns the default 🌤️ when no key matches, and
never returns an empty result. -/
theorem c10_weather_icon_total (condition : String) :
    getWeatherIcon condition =
      (((iconMap.find? fun kv => jsIncludes (jsToLowerCase condition) kv.1).map Prod.snd).getD
        "🌤️") ∧
    getWeatherIcon condition ≠ "" := by
  constructor
  · exact getWeatherIconAux_eq_find (jsToLowerCase condition) iconMap
  · exact getWeatherIconAux_ne_empty (jsToLowerCase condition) iconMap (by decide)

/-- Witness for C10: first-match order picks "light rain" over "rainy". -/
theorem c10_weather_icon_total_witness :
    getWeatherIcon "Light rain shower" ≠ "" ∧ getWeatherIcon "Light rain shower" = "🌦️" :=
  ⟨(c10_weather_icon_total "Light rain shower").2, by decide⟩
